import Mathlib

/-!
Verification development for the ray-tracing renderer in `Renderer.cpp` /
`game.cpp` (repository AG-Assignment).

Modelling conventions:
* C++ `float` arithmetic in the shading path is modelled over the exact
  rationals `ℚ`; the claims settled against this path are structural
  (which branch runs, which expression is returned) and do not depend on
  rounding.  The readout path (`getOutput`) is additionally modelled with an
  extended value type `FVal` that tracks IEEE-754 infinity and NaN, because
  one claim is about a division by zero there.
* Library functions without an exact rational counterpart (`sqrtf`, `expf`,
  `cos`) are environment parameters: arbitrary functions `ℚ → ℚ` standing for
  the C runtime implementations.  No settled claim depends on their values.
* The BVH (`bvh.intersect`), the `Camera` class, the `Material::getDiffuse`
  member and the configuration macros (`AMBIENTLIGHT`, the bias epsilons,
  `SCRWIDTH`/`SCRHEIGHT`, `SAMPLES`, ...) live in files that are not part of
  the two translated sources; they are modelled as opaque environment data,
  faithful to their interface as the spec describes it.
-/

/-- 3-component vector of the template's `vec3` (the vector header is not one
of the two source files; its operations are the standard componentwise ones
the renderer relies on: `+`, `-`, componentwise `*`, scalar scaling, `dot`,
`length`, `normalize`). -/
structure vec3 where
  x : ℚ
  y : ℚ
  z : ℚ
deriving DecidableEq, Repr

namespace vec3

def zero : vec3 := ⟨0, 0, 0⟩

instance : Add vec3 := ⟨fun a b => ⟨a.x + b.x, a.y + b.y, a.z + b.z⟩⟩

instance : Sub vec3 := ⟨fun a b => ⟨a.x - b.x, a.y - b.y, a.z - b.z⟩⟩

/-- Componentwise product, as the template's `vec3 * vec3`. -/
instance : Mul vec3 := ⟨fun a b => ⟨a.x * b.x, a.y * b.y, a.z * b.z⟩⟩

instance : SMul ℚ vec3 := ⟨fun s v => ⟨s * v.x, s * v.y, s * v.z⟩⟩

def dot (a b : vec3) : ℚ := a.x * b.x + a.y * b.y + a.z * b.z

@[simp] theorem add_def (a b : vec3) : a + b = ⟨a.x + b.x, a.y + b.y, a.z + b.z⟩ := rfl

@[simp] theorem sub_def (a b : vec3) : a - b = ⟨a.x - b.x, a.y - b.y, a.z - b.z⟩ := rfl

@[simp] theorem mul_def (a b : vec3) : a * b = ⟨a.x * b.x, a.y * b.y, a.z * b.z⟩ := rfl

@[simp] theorem smul_def (s : ℚ) (v : vec3) : s • v = ⟨s * v.x, s * v.y, s * v.z⟩ := rfl

@[simp] theorem dot_def (a b : vec3) : dot a b = a.x * b.x + a.y * b.y + a.z * b.z := rfl

/-- `vec3::length`: square root of the squared length, through the runtime
square root `sqrtf`. -/
def length (sqrtf : ℚ → ℚ) (v : vec3) : ℚ := sqrtf (v.dot v)

/-- `vec3::normalize`: divide by the length.  (Rational division by zero
yields `0`; no settled claim evaluates `normalize` on a zero vector.) -/
def normalize (sqrtf : ℚ → ℚ) (v : vec3) : vec3 := (length sqrtf v)⁻¹ • v

end vec3

/-- The single-precision `FLT_MAX` sentinel (exact value of the largest
finite `float`), used by `Renderer::shootRay` to recognise "no hit". -/
def FLT_MAX : ℚ := 2 ^ 128 - 2 ^ 104

/-- The members of the C++ `MaterialType` enum that the translated sources
dispatch on.  (The enum lives in a header that is not one of the two source
files; distinct enum members are distinct values.) -/
inductive MaterialType where
  | LAMBERTIAN_MAT
  | MIRROR_MAT
  | GLASS_MAT
  | EMIT_MAT
deriving DecidableEq, Repr

/-- The `Material` record as consumed by `Renderer.cpp`.  `getDiffuse` is the
member `Material::getDiffuse(u, v)` (its body is in a header that is not one
of the two source files); it is modelled as a per-material function of the
texture coordinates, as the spec describes the diffuse response. -/
structure Material where
  type : MaterialType
  spec : ℚ
  refractionIndex : ℚ
  color : vec3
  attenuation : vec3
  emission : vec3
  getDiffuse : ℚ → ℚ → vec3

/-- Modelled from the spec: the default refractive index a freshly
constructed `Ray` carries (the `Ray` header is not one of the two source
files).  The spec's data model makes the carried scalar the index of the
current medium, initially the surroundings (index 1). -/
def rayDefaultRefractionIndex : ℚ := 1

/-- The `Ray` record: origin, direction, and the carried
refractive-index-of-current-medium scalar. -/
structure Ray where
  origin : vec3
  direction : vec3
  refractionIndex : ℚ

/-- The `Hit` record returned by intersection queries.  `hitType` is `1` for
a hit from outside, `-1` for a hit from inside, `0` for no hit;
`t = FLT_MAX` is the no-hit sentinel `shootRay` checks. -/
structure Hit where
  t : ℚ
  coordinates : vec3
  normal : vec3
  mat : Material
  u : ℚ
  v : ℚ
  hitType : ℤ

inductive LightType where
  | DIRECTIONAL_LIGHT
  | POINT_LIGHT
  | SPOT_LIGHT
deriving DecidableEq, Repr

structure Light where
  type : LightType
  origin : vec3
  direction : vec3
  color : vec3
  intensity : ℚ
  fov : ℚ

/-- The renderer's fixed environment during a `shootRay` evaluation:
* `intersect` — modelled from the spec: the BVH nearest-hit query
  `bvh.intersect(ray)` (§4.1: nearest hit, `t = FLT_MAX`/+infinity when
  nothing is hit); the BVH implementation is not one of the two source files;
* `lights` — the light list installed by `setLights`;
* `sqrtf`, `expf`, `cosf` — the C runtime math functions;
* `ambientLight`, `shadowBias`, `reflectionBias`, `refractionBias` — the
  configuration macros `AMBIENTLIGHT`, `SHADOWBIAS`, `REFLECTIONBIAS`,
  `REFRACTIONBIAS` from the headers;
* `rng` — the program's global random stream (available to the process;
  the translated shading path never consumes it, which is what the
  determinism claim is about). -/
structure Env where
  intersect : Ray → Hit
  lights : List Light
  sqrtf : ℚ → ℚ
  expf : ℚ → ℚ
  cosf : ℚ → ℚ
  ambientLight : ℚ
  shadowBias : ℚ
  reflectionBias : ℚ
  refractionBias : ℚ
  rng : ℕ → ℚ

/-- `clampFloat(val, lo, hi)` (Renderer.cpp lines 144-154). -/
def clampFloat (val lo hi : ℚ) : ℚ :=
  if val > hi then hi else if val < lo then lo else val

/-- The `(cosI, etaI, etaT)` triple set up at the start of `calcFresnel`
(Renderer.cpp lines 159-165): `cosI = -normal·rayDir`, indices `1` and the
material's index, swapped when `cosI > 0`. -/
def fresnelEtas (rayDir normal : vec3) (refractiveIndex : ℚ) : ℚ × ℚ × ℚ :=
  let cosI := -1 * normal.dot rayDir
  if cosI > 0 then (cosI, refractiveIndex, 1) else (cosI, 1, refractiveIndex)

/-- The Snell's-law sine of the transmitted angle computed in `calcFresnel`
(Renderer.cpp line 167): `sinT = etaI / etaT * sqrtf(max(0, 1 - cosI²))`. -/
def fresnelSinT (sqrtf : ℚ → ℚ) (rayDir normal : vec3) (refractiveIndex : ℚ) : ℚ :=
  let (cosI, etaI, etaT) := fresnelEtas rayDir normal refractiveIndex
  etaI / etaT * sqrtf (max 0 (1 - cosI * cosI))

/-- `calcFresnel` (Renderer.cpp lines 157-183): the Fresnel reflectance `kr`,
forced to `1` on total internal reflection (`sinT ≥ 1`), otherwise the
average of the squared s- and p-polarised amplitudes. -/
def calcFresnel (sqrtf : ℚ → ℚ) (rayDir normal : vec3) (refractiveIndex : ℚ) : ℚ :=
  let (cosI0, etaI, etaT) := fresnelEtas rayDir normal refractiveIndex
  let sinT := fresnelSinT sqrtf rayDir normal refractiveIndex
  if sinT ≥ 1 then 1
  else
    let cosT := sqrtf (max 0 (1 - sinT * sinT))
    let cosI := |cosI0|
    let Rs := ((etaT * cosI) - (etaI * cosT)) / ((etaT * cosI) + (etaI * cosT))
    let Rp := ((etaI * cosI) - (etaT * cosT)) / ((etaI * cosI) + (etaT * cosT))
    (Rs * Rs + Rp * Rp) / 2

/-- `getReflectedRay` (Renderer.cpp lines 185-193): mirror the incoming
direction about the normal and offset the origin by `REFLECTIONBIAS`. -/
def getReflectedRay (reflectionBias : ℚ) (incoming normal hitLocation : vec3) : Ray :=
  let outgoing := incoming - (2 * incoming.dot normal) • normal
  { origin := hitLocation + reflectionBias • outgoing
    direction := outgoing
    refractionIndex := rayDefaultRefractionIndex }

/-- `getRefractedRay` (Renderer.cpp lines 195-209): Snell's-law direction for
index pair `n1 → n2`, normalized, origin offset by `REFRACTIONBIAS`.  The
constructed `Ray` carries the default refractive index (the function never
sets it). -/
def getRefractedRay (sqrtf : ℚ → ℚ) (refractionBias : ℚ) (n1 n2 : ℚ)
    (normal incoming hitLocation : vec3) : Ray :=
  let n := n1 / n2
  let cosI := -1 * normal.dot incoming
  let cosT2 := 1 - (n * n) * (1 - cosI * cosI)
  let refractedDirection :=
    vec3.normalize sqrtf (n • incoming + (n * cosI - sqrtf cosT2) • normal)
  { origin := hitLocation + refractionBias • refractedDirection
    direction := refractedDirection
    refractionIndex := rayDefaultRefractionIndex }

/-- The per-light-type setup of `Renderer::shadowRay` (Renderer.cpp lines
319-357): the `(dist, dir, inverseSquare, intensity)` quadruple, or `none`
when the spotlight's angular falloff excludes the direction (the early
`return vec3()` at line 350). -/
def shadowParams (e : Env) (h : Hit) (l : Light) : Option (ℚ × vec3 × ℚ × ℚ) :=
  match l.type with
  | LightType.DIRECTIONAL_LIGHT =>
      some (FLT_MAX, vec3.normalize e.sqrtf ((-1 : ℚ) • l.direction), 1, l.intensity)
  | LightType.POINT_LIGHT =>
      let dir0 := l.origin - h.coordinates
      let dist := vec3.length e.sqrtf dir0
      some (dist, vec3.normalize e.sqrtf dir0, 1 / (dist * dist), l.intensity)
  | LightType.SPOT_LIGHT =>
      let dir0 := l.origin - h.coordinates
      let dist := vec3.length e.sqrtf dir0
      let dir := vec3.normalize e.sqrtf dir0
      let angle := e.cosf l.fov
      let dt := l.direction.dot ((-1 : ℚ) • dir)
      if angle > dt then none
      else some (dist, dir, 1 / (dist * dist), l.intensity)

/-- The occlusion ray constructed at Renderer.cpp lines 362-363: direction
`dir`, origin offset by `SHADOWBIAS` along it (the carried index stays at
the `Ray` default, which line 313's declaration never changes). -/
def mkShadowRay (e : Env) (h : Hit) (dir : vec3) : Ray :=
  { origin := h.coordinates + e.shadowBias • dir
    direction := dir
    refractionIndex := rayDefaultRefractionIndex }

/-- The occlusion test of Renderer.cpp line 385: the traced nearest hit is a
real hit (`hitType ≠ 0`) lying strictly closer than the light distance. -/
def shadowOccluded (e : Env) (h : Hit) (l : Light) : Bool :=
  match shadowParams e h l with
  | none => false
  | some (dist, dir, _, _) =>
      let shdw := e.intersect (mkShadowRay e h dir)
      shdw.hitType ≠ 0 && shdw.t < dist

/-- `Renderer::shadowRay` (Renderer.cpp lines 311-398): zero when the
spotlight cone excludes the direction, when the surface faces away from the
light (`normal·dir ≤ 0`), or when an occluder lies strictly closer than the
light; otherwise `color * dot * intensity * inverseSquare`. -/
def shadowRay (e : Env) (h : Hit) (l : Light) : vec3 :=
  match shadowParams e h l with
  | none => vec3.zero
  | some (_dist, dir, inverseSquare, intensity) =>
      let dt := h.normal.dot dir
      if dt > 0 then
        if shadowOccluded e h l then vec3.zero
        else (dt * intensity * inverseSquare) • l.color
      else vec3.zero

/-- The light-intensity accumulation of Renderer.cpp lines 242-248: start
from the ambient vector, add every light's shadow-ray contribution. -/
def lightIntensity (e : Env) (h : Hit) : vec3 :=
  e.lights.foldl (fun acc l => acc + shadowRay e h l)
    (vec3.mk e.ambientLight e.ambientLight e.ambientLight)

/-- The default shading of Renderer.cpp line 305 (also the depth-exhausted
case): `mat.getDiffuse(u, v) * lightIntensity`. -/
def diffuseShade (e : Env) (h : Hit) : vec3 :=
  h.mat.getDiffuse h.u h.v * lightIntensity e h

/-- The refracted ray traced by the glass branch (Renderer.cpp lines
274-285): `getRefractedRay(r.refractionIndex, mat.refractionIndex,
normal * hitType, r.direction, coordinates)`, and, only when the hit comes
from inside (`hitType == -1`), the carried index is overwritten with the
material's index (line 280). -/
def glassRefractionRay (sqrtf : ℚ → ℚ) (refractionBias : ℚ) (h : Hit) (r : Ray) : Ray :=
  let refr := getRefractedRay sqrtf refractionBias r.refractionIndex h.mat.refractionIndex
      ((h.hitType : ℚ) • h.normal) r.direction h.coordinates
  if h.hitType = -1 then { refr with refractionIndex := h.mat.refractionIndex } else refr

/-- The Beer's-law attenuation of Renderer.cpp lines 276-285: `(1, 1, 1)`
unless the hit comes from inside, in which case
`exp((1 - color) * attenuation * -1 * t)` per channel. -/
def glassAttenuation (expf : ℚ → ℚ) (h : Hit) : vec3 :=
  if h.hitType = -1 then
    let absorbance := ((-1 : ℚ) * h.t) • ((vec3.mk 1 1 1 - h.mat.color) * h.mat.attenuation)
    vec3.mk (expf absorbance.x) (expf absorbance.y) (expf absorbance.z)
  else vec3.mk 1 1 1

/-- `Renderer::shootRay(ray, depth)` (Renderer.cpp lines 211-309), on the
`USE_BVH` configuration (the nearest hit comes from `bvh.intersect`).  The
C++ guard `depth > 0 && type == ...` is rendered by matching on the depth:
at depth `0` both reflective branches are disabled and the default shading
runs; at depth `d + 1` the recursive calls use `d` (`depth - 1`). -/
def shootRay (e : Env) : ℕ → Ray → vec3
  | 0, r =>
      let closestHit := e.intersect r
      if closestHit.t = FLT_MAX then vec3.zero
      else diffuseShade e closestHit
  | d + 1, r =>
      let closestHit := e.intersect r
      if closestHit.t = FLT_MAX then vec3.zero
      else if closestHit.mat.type = MaterialType.MIRROR_MAT then
        let refl := getReflectedRay e.reflectionBias r.direction closestHit.normal
            closestHit.coordinates
        (1 - closestHit.mat.spec) •
            (closestHit.mat.getDiffuse closestHit.u closestHit.v * lightIntensity e closestHit)
          + closestHit.mat.spec • shootRay e d refl
      else if closestHit.mat.type = MaterialType.GLASS_MAT then
        let kr := calcFresnel e.sqrtf r.direction
            (((-1 : ℚ) * (closestHit.hitType : ℚ)) • closestHit.normal)
            closestHit.mat.refractionIndex
        let refracted :=
          if kr < 1 then
            shootRay e d (glassRefractionRay e.sqrtf e.refractionBias closestHit r)
              * glassAttenuation e.expf closestHit
          else vec3.zero
        let reflected :=
          if kr > 0 then
            shootRay e d (getReflectedRay e.reflectionBias r.direction closestHit.normal
              closestHit.coordinates)
          else vec3.zero
        kr • reflected + (1 - kr) • refracted
      else diffuseShade e closestHit

/-- The renderer's mutable state: the accumulation buffer `prebuffer` (as a
function from linear pixel index), the iteration counter `currentSample`
(initialised to 1 in the constructor), and the camera.  The `Camera` class is
not one of the two source files, so its state is an abstract type `Cam` and
its mutators are abstract functions passed to the operations that call
them. -/
structure RendererState (Cam : Type) where
  prebuffer : ℕ → vec3
  currentSample : ℕ
  cam : Cam

/-- `Renderer::invalidatePrebuffer` (Renderer.cpp lines 400-408): zero the
first `SCRWIDTH * SCRHEIGHT` (= `N`) pixels and reset `currentSample` to 1.
The screen dimensions come from configuration macros, passed as `N`. -/
def invalidatePrebuffer {Cam : Type} (N : ℕ) (s : RendererState Cam) : RendererState Cam :=
  { s with
    prebuffer := fun i => if i < N then vec3.zero else s.prebuffer i
    currentSample := 1 }

/-- `Renderer::moveCam` (Renderer.cpp lines 92-96): invalidate, then
`cam.move(vec)` (an abstract camera mutator). -/
def moveCam {Cam : Type} (N : ℕ) (move : Cam → vec3 → Cam) (v : vec3)
    (s : RendererState Cam) : RendererState Cam :=
  let s1 := invalidatePrebuffer N s
  { s1 with cam := move s1.cam v }

/-- `Renderer::rotateCam` (Renderer.cpp lines 99-103). -/
def rotateCam {Cam : Type} (N : ℕ) (rotate : Cam → vec3 → Cam) (v : vec3)
    (s : RendererState Cam) : RendererState Cam :=
  let s1 := invalidatePrebuffer N s
  { s1 with cam := rotate s1.cam v }

/-- `Renderer::zoomCam` (Renderer.cpp lines 105-109): the abstract mutator
stands for `cam.zoom(deltaZoom, true)`. -/
def zoomCam {Cam : Type} (N : ℕ) (zoom : Cam → ℚ → Cam) (deltaZoom : ℚ)
    (s : RendererState Cam) : RendererState Cam :=
  let s1 := invalidatePrebuffer N s
  { s1 with cam := zoom s1.cam deltaZoom }

/-- `Renderer::changeAperture` (Renderer.cpp lines 111-115). -/
def changeAperture {Cam : Type} (N : ℕ) (change : Cam → ℚ → Cam) (deltaAperture : ℚ)
    (s : RendererState Cam) : RendererState Cam :=
  let s1 := invalidatePrebuffer N s
  { s1 with cam := change s1.cam deltaAperture }

/-- `Renderer::focusCam` (Renderer.cpp lines 117-123): invalidate, intersect
the camera's focus ray, store the hit distance as the focus distance
(`focusRay` and the focus-distance setter are abstract camera functions). -/
def focusCam {Cam : Type} (N : ℕ) (e : Env) (focusRay : Cam → Ray)
    (setFocusDistance : Cam → ℚ → Cam) (s : RendererState Cam) : RendererState Cam :=
  let s1 := invalidatePrebuffer N s
  let h := e.intersect (focusRay s1.cam)
  { s1 with cam := setFocusDistance s1.cam h.t }

/-- `Renderer::renderFrame` (Renderer.cpp lines 46-74).  When
`currentSample < SAMPLES`, the tiled loop adds one `shootRay` sample (at
`MAXRAYDEPTH`) to every on-screen pixel — the tiles partition the screen and
the bound check at line 60 skips the ragged edge, so the net effect is one
accumulation per linear index `i < SCRWIDTH * SCRHEIGHT` with
`x = i % SCRWIDTH`, `y = i / SCRWIDTH` — and then increments the counter.
Otherwise the body only sleeps (line 72), leaving the state unchanged. -/
def renderFrame {Cam : Type} (e : Env) (W H SAMPLES MAXRAYDEPTH : ℕ)
    (getRay : Cam → ℕ → ℕ → Ray) (s : RendererState Cam) : RendererState Cam :=
  if s.currentSample < SAMPLES then
    { s with
      prebuffer := fun i =>
        if i < W * H then
          s.prebuffer i + shootRay e MAXRAYDEPTH (getRay s.cam (i % W) (i / W))
        else s.prebuffer i
      currentSample := s.currentSample + 1 }
  else s

/-- Single-precision value model for the readout path: exact finite values,
infinity and NaN.  Only the operations `getOutput` performs are modelled,
with IEEE-754 semantics; the sign of infinity is not tracked because the
readout path only ever produces `1 / 0 = +∞` (positive numerator). -/
inductive FVal where
  | finite (q : ℚ)
  | inf
  | nan
deriving DecidableEq, Repr

namespace FVal

/-- IEEE division for the cases the readout exercises: `x / 0` is NaN for
`x = 0` and infinite otherwise; a finite value over infinity is zero. -/
def fdiv : FVal → FVal → FVal
  | finite a, finite b => if b = 0 then (if a = 0 then nan else inf) else finite (a / b)
  | nan, _ => nan
  | _, nan => nan
  | inf, finite _ => inf
  | finite _, inf => finite 0
  | inf, inf => nan

/-- IEEE multiplication: NaN propagates; `0 × ∞` is NaN. -/
def fmul : FVal → FVal → FVal
  | finite a, finite b => finite (a * b)
  | nan, _ => nan
  | _, nan => nan
  | inf, finite b => if b = 0 then nan else inf
  | finite a, inf => if a = 0 then nan else inf
  | inf, inf => inf

/-- `clampFloat` lifted to the value model.  `+∞ > hi` holds, so infinity
clamps to `hi`; every comparison against NaN is false, so NaN passes through
unchanged. -/
def clamp (lo hi : ℚ) : FVal → FVal
  | finite q => finite (clampFloat q lo hi)
  | inf => finite hi
  | nan => nan

/-- The runtime square root (`_mm_sqrt_ps` lane) lifted to the value model:
an abstract function on finite values, fixed points at infinity; NaN
propagates. -/
def fsqrt (sqrtf : ℚ → ℚ) : FVal → FVal
  | finite q => finite (sqrtf q)
  | inf => inf
  | nan => nan

/-- The `float → unsigned char` conversion in `Renderer::rgb` after the
clamp: multiply by 255 and truncate.  Converting a non-finite float to an
integer is undefined in C; it is mapped to 0 here and no settled claim
evaluates it there. -/
def toByte : FVal → ℕ
  | finite q => (Int.floor (q * 255)).toNat
  | _ => 0

end FVal

/-- A triple of model values, one per colour channel. -/
structure FVal3 where
  x : FVal
  y : FVal
  z : FVal
deriving DecidableEq, Repr

namespace FVal3

def ofVec (v : vec3) : FVal3 := ⟨FVal.finite v.x, FVal.finite v.y, FVal.finite v.z⟩

def zero : FVal3 := ofVec vec3.zero

/-- Componentwise scaling by one scalar, as `prebuffer[i] * importance`. -/
def scale (v : FVal3) (s : FVal) : FVal3 := ⟨v.x.fmul s, v.y.fmul s, v.z.fmul s⟩

end FVal3

/-- The `importance` factor of `Renderer::getOutput` (Renderer.cpp line 129):
`1.f / float(currentSample - 1)`, with no guard on the divisor. -/
def importanceAt (currentSample : ℕ) : FVal :=
  FVal.fdiv (FVal.finite 1) (FVal.finite ((currentSample - 1 : ℕ) : ℚ))

/-- The normalized value `prebuffer[i] * importance` that Renderer.cpp line
132 hands to `gammaCorrect`. -/
def normalizedPixel (prebuffer : ℕ → vec3) (currentSample i : ℕ) : FVal3 :=
  FVal3.scale (FVal3.ofVec (prebuffer i)) (importanceAt currentSample)

/-- `Renderer::gammaCorrect` (Renderer.cpp lines 439-448): the SIMD shuffle
into `_mm_set_ps`, square root, and shuffle back amount to a componentwise
square root. -/
def gammaCorrect (sqrtf : ℚ → ℚ) (v : FVal3) : FVal3 :=
  ⟨v.x.fsqrt sqrtf, v.y.fsqrt sqrtf, v.z.fsqrt sqrtf⟩

/-- One pixel of `Renderer::getOutput` (Renderer.cpp lines 125-136) down to
the quantized `(r, g, b)` bytes of `Renderer::rgb` (lines 410-427; the
constant alpha byte is omitted): normalize, gamma-correct, clamp each
channel to `[0, 1]`, multiply by 255 and truncate.  No neighbor pixel and no
depth value is consulted anywhere on this path. -/
def getOutputPixelBytes (sqrtf : ℚ → ℚ) (prebuffer : ℕ → vec3) (currentSample i : ℕ) :
    ℕ × ℕ × ℕ :=
  let g := gammaCorrect sqrtf (normalizedPixel prebuffer currentSample i)
  ((g.x.clamp 0 1).toByte, (g.y.clamp 0 1).toByte, (g.z.clamp 0 1).toByte)

/-- The nine offsets of a 3×3 neighborhood. -/
def neighborOffsets : List (ℤ × ℤ) :=
  [(-1, -1), (0, -1), (1, -1), (-1, 0), (0, 0), (1, 0), (-1, 1), (0, 1), (1, 1)]

/-- Modelled from the spec (§4.4 readout, step (b), not present in the
translated sources): the depth-aware 3×3 box filter — for each of the 9
neighbor offsets take the neighbor's value, unless its stored hit depth
differs from the center's by more than the bias threshold, in which case the
center's own value is substituted; average the nine choices. -/
def specDepthFilter (values : ℤ × ℤ → vec3) (depths : ℤ × ℤ → ℚ) (bias : ℚ)
    (p : ℤ × ℤ) : vec3 :=
  (1 / 9 : ℚ) •
    neighborOffsets.foldl
      (fun acc o =>
        let n := (p.1 + o.1, p.2 + o.2)
        acc + (if |depths n - depths p| > bias then values p else values n))
      vec3.zero

/-- Byte quantization of one clamped channel, for the spec-side readout. -/
def qByte (x : ℚ) : ℕ := (Int.floor (clampFloat x 0 1 * 255)).toNat

/-- Modelled from the spec (§4.4): the full readout the spec describes —
normalize by `(iterationCount - 1)`, apply the depth-aware 3×3 box filter,
gamma-correct via square root, clamp to `[0, 1]` and quantize to bytes.
Pixels are addressed on the 2-D grid the filter needs. -/
def specReadoutPixelBytes (sqrtf : ℚ → ℚ) (values : ℤ × ℤ → vec3) (depths : ℤ × ℤ → ℚ)
    (bias : ℚ) (currentSample : ℕ) (p : ℤ × ℤ) : ℕ × ℕ × ℕ :=
  let normalized : ℤ × ℤ → vec3 := fun q => (((currentSample : ℚ) - 1)⁻¹) • values q
  let filtered := specDepthFilter normalized depths bias p
  (qByte (sqrtf filtered.x), qByte (sqrtf filtered.y), qByte (sqrtf filtered.z))

/-- A concrete emissive material: emission `(5, 5, 5)`, diffuse response
`(1, 1, 1)`. -/
def cexMat1 : Material :=
  { type := MaterialType.EMIT_MAT
    spec := 0
    refractionIndex := 1
    color := vec3.zero
    attenuation := vec3.zero
    emission := vec3.mk 5 5 5
    getDiffuse := fun _ _ => vec3.mk 1 1 1 }

def cexHit1 : Hit :=
  { t := 1, coordinates := vec3.zero, normal := vec3.mk 0 0 (-1)
    mat := cexMat1, u := 0, v := 0, hitType := 1 }

/-- Environment whose nearest hit is always the emissive hit `cexHit1`, with
no lights and ambient level 2. -/
def cexEnv1 : Env :=
  { intersect := fun _ => cexHit1, lights := []
    sqrtf := fun q => q, expf := fun q => q, cosf := fun _ => 0
    ambientLight := 2, shadowBias := 0, reflectionBias := 0, refractionBias := 0
    rng := fun _ => 0 }

def cexRay1 : Ray := { origin := vec3.zero, direction := vec3.mk 0 0 1, refractionIndex := 1 }

/-- C1 counterexample: the nearest hit of `cexRay1` under `cexEnv1` has an
EMISSIVE material with emission `(5, 5, 5)`, yet `shootRay` does not return
that emission (it returns the diffuse shading `(2, 2, 2)` — `shootRay` has
no emissive branch at all). -/
theorem emissive_hit_not_returned_directly :
    shootRay cexEnv1 3 cexRay1 ≠ (cexEnv1.intersect cexRay1).mat.emission := by
  have h1 : (1 : ℚ) ≠ FLT_MAX := by norm_num [FLT_MAX]
  simp [shootRay, cexEnv1, cexHit1, cexMat1, diffuseShade, lightIntensity, h1]

/-- C1 (amended): `shootRay` has no emissive terminal case.  A nearest hit
whose material is EMISSIVE is shaded through the default branch at every
depth, returning `getDiffuse(u, v) * lightIntensity`; the material's
`emission` field is never read. -/
theorem emissive_hit_shaded_as_diffuse (e : Env) (d : ℕ) (r : Ray)
    (hhit : (e.intersect r).t ≠ FLT_MAX)
    (htype : (e.intersect r).mat.type = MaterialType.EMIT_MAT) :
    shootRay e d r = diffuseShade e (e.intersect r) := by
  cases d with
  | zero => simp [shootRay, hhit]
  | succ d => simp [shootRay, hhit, htype]

/-- Witness for the amended C1 theorem at the concrete emissive scene. -/
theorem emissive_hit_shaded_as_diffuse_witness :
    shootRay cexEnv1 2 cexRay1 = diffuseShade cexEnv1 (cexEnv1.intersect cexRay1) :=
  emissive_hit_shaded_as_diffuse cexEnv1 2 cexRay1
    (by norm_num [cexEnv1, cexHit1, FLT_MAX]) rfl

/-- A concrete mirror material with diffuse response `(1, 1, 1)`. -/
def cexMat2 : Material :=
  { type := MaterialType.MIRROR_MAT
    spec := 1
    refractionIndex := 1
    color := vec3.zero
    attenuation := vec3.zero
    emission := vec3.zero
    getDiffuse := fun _ _ => vec3.mk 1 1 1 }

def cexHit2 : Hit :=
  { t := 1, coordinates := vec3.zero, normal := vec3.mk 0 0 (-1)
    mat := cexMat2, u := 0, v := 0, hitType := 1 }

def cexEnv2 : Env :=
  { intersect := fun _ => cexHit2, lights := []
    sqrtf := fun q => q, expf := fun q => q, cosf := fun _ => 0
    ambientLight := 1, shadowBias := 0, reflectionBias := 0, refractionBias := 0
    rng := fun _ => 0 }

def cexRay2 : Ray := { origin := vec3.zero, direction := vec3.mk 0 0 1, refractionIndex := 1 }

/-- C2 counterexample: at remaining depth 0 a mirror hit does not return
zero radiance — under `cexEnv2` (ambient level 1, diffuse response
`(1, 1, 1)`) it returns `(1, 1, 1)`. -/
theorem depth_zero_mirror_not_black :
    shootRay cexEnv2 0 cexRay2 ≠ vec3.zero := by
  have h1 : (1 : ℚ) ≠ FLT_MAX := by norm_num [FLT_MAX]
  simp [shootRay, cexEnv2, cexHit2, cexMat2, diffuseShade, lightIntensity, vec3.zero, h1]

/-- C2 (amended): `shootRay` with remaining depth 0 on a mirror or glass hit
performs no recursive call (the depth-0 equation is non-recursive) and
returns the default diffuse shading `getDiffuse(u, v) * lightIntensity` —
which is not zero in general. -/
theorem depth_zero_mirror_or_glass_diffuse (e : Env) (r : Ray)
    (hhit : (e.intersect r).t ≠ FLT_MAX)
    (_htype : (e.intersect r).mat.type = MaterialType.MIRROR_MAT ∨
        (e.intersect r).mat.type = MaterialType.GLASS_MAT) :
    shootRay e 0 r = diffuseShade e (e.intersect r) := by
  simp [shootRay, hhit]

/-- Witness for the amended C2 theorem at the concrete mirror scene. -/
theorem depth_zero_mirror_or_glass_diffuse_witness :
    shootRay cexEnv2 0 cexRay2 = diffuseShade cexEnv2 (cexEnv2.intersect cexRay2) :=
  depth_zero_mirror_or_glass_diffuse cexEnv2 cexRay2
    (by norm_num [cexEnv2, cexHit2, FLT_MAX]) (Or.inl rfl)

/-- The kr-weighted blend the dielectric claim describes, stated standalone:
`kr` from `calcFresnel` (with the normal flipped by `-hitType`), the
reflected contribution traced when `kr > 0`, the refracted contribution
(attenuated, through the ray `glassRefractionRay` builds) traced when
`kr < 1`, combined as `reflected * kr + refracted * (1 - kr)`. -/
def glassBlend (e : Env) (d : ℕ) (r : Ray) (h : Hit) : vec3 :=
  let kr := calcFresnel e.sqrtf r.direction (((-1 : ℚ) * (h.hitType : ℚ)) • h.normal)
      h.mat.refractionIndex
  let reflected :=
    if kr > 0 then
      shootRay e d (getReflectedRay e.reflectionBias r.direction h.normal h.coordinates)
    else vec3.zero
  let refracted :=
    if kr < 1 then
      shootRay e d (glassRefractionRay e.sqrtf e.refractionBias h r) * glassAttenuation e.expf h
    else vec3.zero
  kr • reflected + (1 - kr) • refracted

/-- C3: on a glass hit with remaining depth `> 0`, `shootRay` returns exactly
the kr-weighted blend of the reflected and refracted contributions; total
internal reflection (`sinT ≥ 1`) forces `kr = 1`; and with `kr` not below 1
the refracted contribution is the zero vector (no refracted ray is traced). -/
theorem glass_blend_and_tir (e : Env) (d : ℕ) (r : Ray)
    (hhit : (e.intersect r).t ≠ FLT_MAX)
    (htype : (e.intersect r).mat.type = MaterialType.GLASS_MAT) :
    shootRay e (d + 1) r = glassBlend e d r (e.intersect r)
    ∧ (∀ (sqrtf : ℚ → ℚ) (rayDir normal : vec3) (ri : ℚ),
        fresnelSinT sqrtf rayDir normal ri ≥ 1 → calcFresnel sqrtf rayDir normal ri = 1)
    ∧ (∀ (sqrtf : ℚ → ℚ) (rayDir normal : vec3) (ri : ℚ) (X : vec3),
        fresnelSinT sqrtf rayDir normal ri ≥ 1 →
          (if calcFresnel sqrtf rayDir normal ri < 1 then X else vec3.zero) = vec3.zero) := by
  have htir : ∀ (sqrtf : ℚ → ℚ) (rayDir normal : vec3) (ri : ℚ),
      fresnelSinT sqrtf rayDir normal ri ≥ 1 → calcFresnel sqrtf rayDir normal ri = 1 := by
    intro sqf rayDir normal ri h1
    simp only [calcFresnel]
    rw [if_pos h1]
  refine ⟨?_, htir, ?_⟩
  · simp [shootRay, glassBlend, hhit, htype]
  · intro sqf rayDir normal ri X h1
    rw [htir sqf rayDir normal ri h1]
    simp

/-- A concrete dielectric material (index 3/2) and a hit from outside. -/
def cexMat3 : Material :=
  { type := MaterialType.GLASS_MAT
    spec := 0
    refractionIndex := 3 / 2
    color := vec3.mk 1 1 1
    attenuation := vec3.zero
    emission := vec3.zero
    getDiffuse := fun _ _ => vec3.mk 1 1 1 }

def cexHit3 : Hit :=
  { t := 1, coordinates := vec3.zero, normal := vec3.mk 0 0 (-1)
    mat := cexMat3, u := 0, v := 0, hitType := 1 }

def cexEnv3 : Env :=
  { intersect := fun _ => cexHit3, lights := []
    sqrtf := fun q => q, expf := fun q => q, cosf := fun _ => 0
    ambientLight := 1, shadowBias := 0, reflectionBias := 0, refractionBias := 0
    rng := fun _ => 0 }

def cexRay3 : Ray := { origin := vec3.zero, direction := vec3.mk 0 0 1, refractionIndex := 1 }

/-- Witness for the C3 theorem: the blend equation at the concrete glass
scene, and `kr = 1` at a concrete total-internal-reflection configuration. -/
theorem glass_blend_and_tir_witness :
    shootRay cexEnv3 1 cexRay3 = glassBlend cexEnv3 0 cexRay3 (cexEnv3.intersect cexRay3)
    ∧ calcFresnel (fun _ => 2) (vec3.mk 1 0 0) (vec3.mk 0 1 0) (1 / 2) = 1 :=
  ⟨(glass_blend_and_tir cexEnv3 0 cexRay3 (by norm_num [cexEnv3, cexHit3, FLT_MAX]) rfl).1,
   (glass_blend_and_tir cexEnv3 0 cexRay3 (by norm_num [cexEnv3, cexHit3, FLT_MAX]) rfl).2.1
     (fun _ => 2) (vec3.mk 1 0 0) (vec3.mk 0 1 0) (1 / 2)
     (by norm_num [fresnelSinT, fresnelEtas])⟩

/-- A concrete dielectric exit: hit from inside (`hitType = -1`), material
index 3/2, incoming ray carrying index 1 (the surrounding medium). -/
def cexHit4 : Hit :=
  { t := 1, coordinates := vec3.zero, normal := vec3.mk 0 0 (-1)
    mat := cexMat3, u := 0, v := 0, hitType := -1 }

def cexRay4 : Ray := { origin := vec3.zero, direction := vec3.mk 0 0 1, refractionIndex := 1 }

/-- C4, evaluated at the failing input: the refracted ray the glass branch
builds at a hit from inside (an exit into the surrounding medium) carries
the material's own index `3/2`, not the surrounding medium's index; and at a
hit from outside (an entry into the material) it carries the constructor
default `1`, not the material's index.  This is the reverse of the claimed
index chaining: the next boundary's `n1 = r.refractionIndex` is wrong in
both directions. -/
theorem refracted_ray_index_reversed :
    (glassRefractionRay (fun q => q) 0 cexHit4 cexRay4).refractionIndex = 3 / 2
    ∧ (glassRefractionRay (fun q => q) 0 { cexHit4 with hitType := 1 } cexRay4).refractionIndex
        = rayDefaultRefractionIndex := by
  constructor <;> rfl

/-- C5 counterexample: called before the first completed frame
(`currentSample` still at its initial value 1), `getOutput`'s divisor
`currentSample - 1` is zero and no branch guards it: the importance factor
is `+∞` and the all-zero accumulated pixel normalizes to NaN per channel —
not to a zero contribution. -/
theorem first_frame_readout_not_zero :
    importanceAt 1 = FVal.inf
    ∧ normalizedPixel (fun _ => vec3.zero) 1 0 = FVal3.mk FVal.nan FVal.nan FVal.nan
    ∧ normalizedPixel (fun _ => vec3.zero) 1 0 ≠ FVal3.zero := by
  have h : importanceAt 1 = FVal.inf := by
    simp [importanceAt, FVal.fdiv]
  refine ⟨h, ?_, ?_⟩
  · simp [normalizedPixel, h, FVal3.scale, FVal3.ofVec, vec3.zero, FVal.fmul]
  · simp [normalizedPixel, h, FVal3.scale, FVal3.ofVec, vec3.zero, FVal.fmul, FVal3.zero]

/-- C5 (amended): `getOutput` normalizes by dividing the accumulated running
sum by `(currentSample - 1)` — for any counter value of at least 2 the
normalized pixel is the running sum scaled by `1 / (currentSample - 1)` —
but there is no explicit branch for the zero divisor: at the initial counter
value 1 the normalized value is never a (finite) zero contribution; it is
NaN or `+∞` per channel. -/
theorem readout_normalization (prebuffer : ℕ → vec3) (cs i : ℕ) :
    (2 ≤ cs →
      normalizedPixel prebuffer cs i = FVal3.ofVec ((((cs : ℚ) - 1)⁻¹) • prebuffer i))
    ∧ normalizedPixel prebuffer 1 i ≠ FVal3.zero := by
  constructor
  · intro h
    have h0 : ((cs - 1 : ℕ) : ℚ) = (cs : ℚ) - 1 := by
      have h1 : 1 ≤ cs := le_trans one_le_two h
      push_cast [h1]
      ring
    have hne : ((cs : ℚ) - 1) ≠ 0 := by
      have h2 : (2 : ℚ) ≤ (cs : ℚ) := by exact_mod_cast h
      intro hz
      nlinarith
    simp [normalizedPixel, importanceAt, h0, FVal.fdiv, hne, FVal3.scale, FVal3.ofVec,
      FVal.fmul]
    refine ⟨?_, ?_, ?_⟩ <;> ring
  · have h : importanceAt 1 = FVal.inf := by
      simp [importanceAt, FVal.fdiv]
    simp only [normalizedPixel, h, FVal3.scale, FVal3.ofVec, FVal3.zero, vec3.zero,
      FVal.fmul]
    intro hc
    rw [FVal3.mk.injEq] at hc
    rcases hc with ⟨hcx, -, -⟩
    split at hcx <;> simp_all

/-- Witness for the amended C5 theorem: at counter value 2 the normalized
pixel is the accumulated value divided by 1. -/
theorem readout_normalization_witness :
    normalizedPixel (fun _ => vec3.mk 4 6 8) 2 0
      = FVal3.ofVec (((((2 : ℕ) : ℚ) - 1)⁻¹) • vec3.mk 4 6 8) :=
  (readout_normalization (fun _ => vec3.mk 4 6 8) 2 0).1 (by norm_num)

/-- The accumulation buffer of the C6 counterexample: zero at the center
pixel (linear index 4 of a 3-wide screen), `(9, 9, 9)` everywhere else. -/
def cexBuf6 : ℕ → vec3 := fun i => if i = 4 then vec3.zero else vec3.mk 9 9 9

/-- The same pixels on the 2-D grid the spec's filter uses: zero at `(1, 1)`,
`(9, 9, 9)` elsewhere. -/
def cexVals6 : ℤ × ℤ → vec3 := fun p => if p = (1, 1) then vec3.zero else vec3.mk 9 9 9

/-- C6 counterexample: at the center pixel with all stored depths equal (so
the claimed depth-aware filter degenerates to a plain 3×3 box average),
`getOutput` emits the bytes of the pixel's own unfiltered value, which
differ from the bytes of the spec's filtered readout: the code applies no
filter at all. -/
theorem readout_is_unfiltered :
    getOutputPixelBytes (fun q => q) cexBuf6 2 4 ≠
      specReadoutPixelBytes (fun q => q) cexVals6 (fun _ => 0) 1 2 (1, 1) := by
  norm_num [getOutputPixelBytes, specReadoutPixelBytes, normalizedPixel, importanceAt,
    FVal.fdiv, FVal.fmul, FVal3.scale, FVal3.ofVec, gammaCorrect, FVal.fsqrt, FVal.clamp,
    FVal.toByte, clampFloat, specDepthFilter, neighborOffsets, qByte, cexBuf6, cexVals6,
    vec3.zero, List.foldl_cons, List.foldl_nil, Int.toNat_ofNat, Prod.ext_iff]
  omega

/-- C6 (amended): `getOutput` applies no spatial filter and consults no
depth buffer: each output pixel is computed from that pixel's accumulated
value alone, so a neighbor's radiance never contributes (and no averaging
happens either). -/
theorem readout_pixel_local (sqrtf : ℚ → ℚ) (b1 b2 : ℕ → vec3) (cs i : ℕ)
    (h : b1 i = b2 i) :
    getOutputPixelBytes sqrtf b1 cs i = getOutputPixelBytes sqrtf b2 cs i := by
  simp [getOutputPixelBytes, normalizedPixel, h]

/-- Witness for the amended C6 theorem: two buffers agreeing at index 0 and
differing elsewhere produce the same output at index 0. -/
theorem readout_pixel_local_witness :
    getOutputPixelBytes (fun q => q) (fun _ => vec3.mk 1 2 3) 2 0
      = getOutputPixelBytes (fun q => q)
          (fun j => if j = 0 then vec3.mk 1 2 3 else vec3.zero) 2 0 :=
  readout_pixel_local (fun q => q) (fun _ => vec3.mk 1 2 3)
    (fun j => if j = 0 then vec3.mk 1 2 3 else vec3.zero) 2 0 (by simp)

/-- A plain lambertian material for the shadow-ray scenes. -/
def cexMat7 : Material :=
  { type := MaterialType.LAMBERTIAN_MAT
    spec := 0
    refractionIndex := 1
    color := vec3.zero
    attenuation := vec3.zero
    emission := vec3.zero
    getDiffuse := fun _ _ => vec3.zero }

/-- The no-hit record the BVH query returns when nothing is hit. -/
def cexMiss7 : Hit :=
  { t := FLT_MAX, coordinates := vec3.zero, normal := vec3.zero
    mat := cexMat7, u := 0, v := 0, hitType := 0 }

/-- A unit-intensity white point light at `(0, 0, 1)`. -/
def cexLight7 : Light :=
  { type := LightType.POINT_LIGHT, origin := vec3.mk 0 0 1, direction := vec3.zero
    color := vec3.mk 1 1 1, intensity := 1, fov := 0 }

/-- A hit at the origin whose surface normal faces away from the light. -/
def cexHit7 : Hit :=
  { t := 1, coordinates := vec3.zero, normal := vec3.mk 0 0 (-1)
    mat := cexMat7, u := 0, v := 0, hitType := 1 }

/-- An environment in which every intersection query misses. -/
def cexEnv7 : Env :=
  { intersect := fun _ => cexMiss7, lights := [cexLight7]
    sqrtf := fun q => q, expf := fun q => q, cosf := fun _ => 0
    ambientLight := 0, shadowBias := 0, reflectionBias := 0, refractionBias := 0
    rng := fun _ => 0 }

/-- C7 counterexample: at a hit whose normal faces away from the point light
(`normal·dir = -1`), the shadow query returns zero although no occluder is
hit at all — so zero is not returned exactly when an occluder lies strictly
closer — and the claimed "otherwise" value (color scaled by cosine,
intensity and inverse-square falloff) is a nonzero vector, which the query
does not return. -/
theorem shadow_zero_without_occluder :
    shadowRay cexEnv7 cexHit7 cexLight7 = vec3.zero
    ∧ shadowOccluded cexEnv7 cexHit7 cexLight7 = false
    ∧ (cexHit7.normal.dot (vec3.mk 0 0 1) * cexLight7.intensity * 1) • cexLight7.color
        ≠ vec3.zero := by
  refine ⟨?_, ?_, ?_⟩
  · norm_num [shadowRay, shadowParams, cexEnv7, cexHit7, cexLight7, vec3.normalize,
      vec3.length, vec3.zero]
  · norm_num [shadowOccluded, shadowParams, mkShadowRay, cexEnv7, cexHit7, cexLight7,
      cexMiss7, vec3.normalize, vec3.length, vec3.zero]
  · norm_num [cexHit7, cexLight7, vec3.zero]

/-- C7 (amended): whenever the per-light setup succeeds (the spotlight cone
does not exclude the direction) and the surface cosine `normal·dir` is
positive (and the claimed contribution is a nonzero vector), the shadow
query returns zero exactly when the traced occluder is a real hit lying
strictly closer than the light's distance; an occluder at exactly the
light's distance does not occlude (strict less-than); and without occlusion
the result is the light's color scaled by the cosine term, the intensity and
the inverse-square factor.  When the cosine is not positive, or the
spotlight cone excludes the direction, zero is returned without any
occlusion test (the original claim's "exactly when" fails there). -/
theorem shadow_ray_strict_occlusion (e : Env) (h : Hit) (l : Light)
    (dist : ℚ) (dir : vec3) (inverseSquare intensity : ℚ)
    (hp : shadowParams e h l = some (dist, dir, inverseSquare, intensity))
    (hdot : 0 < h.normal.dot dir)
    (hnz : (h.normal.dot dir * intensity * inverseSquare) • l.color ≠ vec3.zero) :
    (shadowRay e h l = vec3.zero ↔ shadowOccluded e h l = true)
    ∧ ((e.intersect (mkShadowRay e h dir)).t = dist → shadowOccluded e h l = false)
    ∧ (shadowOccluded e h l = false →
        shadowRay e h l = (h.normal.dot dir * intensity * inverseSquare) • l.color) := by
  have hsr : shadowRay e h l =
      if shadowOccluded e h l then vec3.zero
      else (h.normal.dot dir * intensity * inverseSquare) • l.color := by
    simp only [shadowRay, hp]
    rw [if_pos hdot]
  refine ⟨?_, ?_, ?_⟩
  · rcases hb : shadowOccluded e h l with _ | _
    · rw [hsr, hb]
      simpa using hnz
    · rw [hsr, hb]
      simp
  · intro ht
    simp [shadowOccluded, hp, ht]
  · intro hb
    rw [hsr, hb]
    simp

/-- A hit at the origin whose surface normal faces toward the light. -/
def cexHit7w : Hit :=
  { t := 1, coordinates := vec3.zero, normal := vec3.mk 0 0 1
    mat := cexMat7, u := 0, v := 0, hitType := 1 }

/-- Witness for the amended C7 theorem: the unoccluded facing-the-light
configuration, where the setup yields distance 1, direction `(0, 0, 1)`,
inverse-square factor 1 and intensity 1. -/
theorem shadow_ray_strict_occlusion_witness :
    (shadowRay cexEnv7 cexHit7w cexLight7 = vec3.zero
        ↔ shadowOccluded cexEnv7 cexHit7w cexLight7 = true)
    ∧ ((cexEnv7.intersect (mkShadowRay cexEnv7 cexHit7w (vec3.mk 0 0 1))).t = 1 →
        shadowOccluded cexEnv7 cexHit7w cexLight7 = false)
    ∧ (shadowOccluded cexEnv7 cexHit7w cexLight7 = false →
        shadowRay cexEnv7 cexHit7w cexLight7 =
          (cexHit7w.normal.dot (vec3.mk 0 0 1) * 1 * 1) • cexLight7.color) :=
  shadow_ray_strict_occlusion cexEnv7 cexHit7w cexLight7 1 (vec3.mk 0 0 1) 1 1
    (by norm_num [shadowParams, cexEnv7, cexHit7w, cexLight7, vec3.normalize, vec3.length,
      vec3.zero])
    (by norm_num [cexHit7w])
    (by norm_num [cexHit7w, cexLight7, vec3.zero])

/-- The reset condition the invalidation claim asserts: every on-screen
accumulator entry is the zero vector and the iteration counter is 1. -/
def bufferCleared {Cam : Type} (N : ℕ) (s : RendererState Cam) : Prop :=
  (∀ i, i < N → s.prebuffer i = vec3.zero) ∧ s.currentSample = 1

/-- C8: after `invalidatePrebuffer` and after every camera-mutating
operation (`moveCam`, `rotateCam`, `zoomCam`, `changeAperture`, `focusCam`)
the accumulation buffer is all-zero on screen and the counter is 1; and
invalidating twice is the same state as invalidating once. -/
theorem invalidate_and_camera_ops_reset {Cam : Type} (N : ℕ) (s : RendererState Cam)
    (move rotate : Cam → vec3 → Cam) (v w : vec3) (zoom change : Cam → ℚ → Cam)
    (dz da : ℚ) (e : Env) (focusRay : Cam → Ray) (setFocusDistance : Cam → ℚ → Cam) :
    bufferCleared N (invalidatePrebuffer N s)
    ∧ bufferCleared N (moveCam N move v s)
    ∧ bufferCleared N (rotateCam N rotate w s)
    ∧ bufferCleared N (zoomCam N zoom dz s)
    ∧ bufferCleared N (changeAperture N change da s)
    ∧ bufferCleared N (focusCam N e focusRay setFocusDistance s)
    ∧ invalidatePrebuffer N (invalidatePrebuffer N s) = invalidatePrebuffer N s := by
  simp only [bufferCleared]
  refine ⟨⟨fun i hi => ?_, rfl⟩, ⟨fun i hi => ?_, rfl⟩, ⟨fun i hi => ?_, rfl⟩,
    ⟨fun i hi => ?_, rfl⟩, ⟨fun i hi => ?_, rfl⟩, ⟨fun i hi => ?_, rfl⟩, ?_⟩
  · simp [invalidatePrebuffer, hi]
  · simp [moveCam, invalidatePrebuffer, hi]
  · simp [rotateCam, invalidatePrebuffer, hi]
  · simp [zoomCam, invalidatePrebuffer, hi]
  · simp [changeAperture, invalidatePrebuffer, hi]
  · simp [focusCam, invalidatePrebuffer, hi]
  · simp only [invalidatePrebuffer]
    congr 1
    funext i
    by_cases hi : i < N
    · simp [hi]
    · simp [hi]

/-- A small concrete state used by the renderFrame no-op witness. -/
def cexState9 : RendererState Unit :=
  { prebuffer := fun _ => vec3.zero, currentSample := 5, cam := () }

def cexMat9 : Material :=
  { type := MaterialType.LAMBERTIAN_MAT
    spec := 0
    refractionIndex := 1
    color := vec3.zero
    attenuation := vec3.zero
    emission := vec3.zero
    getDiffuse := fun _ _ => vec3.zero }

def cexMiss9 : Hit :=
  { t := FLT_MAX, coordinates := vec3.zero, normal := vec3.zero
    mat := cexMat9, u := 0, v := 0, hitType := 0 }

def cexEnv9 : Env :=
  { intersect := fun _ => cexMiss9, lights := []
    sqrtf := fun q => q, expf := fun q => q, cosf := fun _ => 0
    ambientLight := 0, shadowBias := 0, reflectionBias := 0, refractionBias := 0
    rng := fun _ => 0 }

def cexRay9 : Ray := { origin := vec3.zero, direction := vec3.mk 0 0 1, refractionIndex := 1 }

/-- C9: once the iteration counter has reached the configured sample cap,
`renderFrame` leaves the whole renderer state — accumulation buffer and
counter included — unchanged (the body only sleeps). -/
theorem renderFrame_noop_at_max {Cam : Type} (e : Env) (W H SAMPLES MAXRAYDEPTH : ℕ)
    (getRay : Cam → ℕ → ℕ → Ray) (s : RendererState Cam)
    (h : SAMPLES ≤ s.currentSample) :
    renderFrame e W H SAMPLES MAXRAYDEPTH getRay s = s := by
  simp [renderFrame, Nat.not_lt.mpr h]

/-- Witness for the C9 theorem: at counter 5 with a sample cap of 5, a frame
request returns the state unchanged. -/
theorem renderFrame_noop_at_max_witness :
    renderFrame cexEnv9 4 4 5 3 (fun _ _ _ => cexRay9) cexState9 = cexState9 :=
  renderFrame_noop_at_max cexEnv9 4 4 5 3 (fun _ _ _ => cexRay9) cexState9
    (by norm_num [cexState9])

/-- `shadowRay` never reads the environment's random stream: changing only
`rng` leaves it definitionally unchanged. -/
theorem shadowRay_rng_free (I : Ray → Hit) (L : List Light) (S E C : ℚ → ℚ)
    (A B R F : ℚ) (g1 g2 : ℕ → ℚ) :
    shadowRay ⟨I, L, S, E, C, A, B, R, F, g1⟩ = shadowRay ⟨I, L, S, E, C, A, B, R, F, g2⟩ :=
  rfl

/-- `lightIntensity` never reads the environment's random stream. -/
theorem lightIntensity_rng_free (I : Ray → Hit) (L : List Light) (S E C : ℚ → ℚ)
    (A B R F : ℚ) (g1 g2 : ℕ → ℚ) :
    lightIntensity ⟨I, L, S, E, C, A, B, R, F, g1⟩
      = lightIntensity ⟨I, L, S, E, C, A, B, R, F, g2⟩ :=
  rfl

/-- `diffuseShade` never reads the environment's random stream. -/
theorem diffuseShade_rng_free (I : Ray → Hit) (L : List Light) (S E C : ℚ → ℚ)
    (A B R F : ℚ) (g1 g2 : ℕ → ℚ) :
    diffuseShade ⟨I, L, S, E, C, A, B, R, F, g1⟩
      = diffuseShade ⟨I, L, S, E, C, A, B, R, F, g2⟩ :=
  rfl

/-- `shootRay` never reads the environment's random stream, at any depth. -/
theorem shootRay_rng_free (I : Ray → Hit) (L : List Light) (S E C : ℚ → ℚ)
    (A B R F : ℚ) (g1 g2 : ℕ → ℚ) :
    ∀ (d : ℕ) (r : Ray),
      shootRay ⟨I, L, S, E, C, A, B, R, F, g1⟩ d r
        = shootRay ⟨I, L, S, E, C, A, B, R, F, g2⟩ d r := by
  intro d
  induction d with
  | zero => intro r; rfl
  | succ d ih =>
      intro r
      simp only [shootRay]
      rw [diffuseShade_rng_free I L S E C A B R F g1 g2,
        lightIntensity_rng_free I L S E C A B R F g1 g2]
      simp only [ih]

/-- C10: `shootRay` is deterministic — two invocations with equal ray, equal
depth and equal renderer state (intersection structure, lights, math
runtime, configuration) return equal radiance.  The environments' random
streams are deliberately unconstrained: the integrator performs no random
sampling of any kind, so the result cannot depend on them. -/
theorem shootRay_deterministic (e1 e2 : Env)
    (hI : e1.intersect = e2.intersect) (hL : e1.lights = e2.lights)
    (hS : e1.sqrtf = e2.sqrtf) (hE : e1.expf = e2.expf) (hC : e1.cosf = e2.cosf)
    (hA : e1.ambientLight = e2.ambientLight) (hSB : e1.shadowBias = e2.shadowBias)
    (hRB : e1.reflectionBias = e2.reflectionBias)
    (hRF : e1.refractionBias = e2.refractionBias)
    (d1 d2 : ℕ) (r1 r2 : Ray) (hd : d1 = d2) (hr : r1 = r2) :
    shootRay e1 d1 r1 = shootRay e2 d2 r2 := by
  subst hd
  subst hr
  obtain ⟨I1, L1, S1, E1, C1, A1, B1, R1, F1, G1⟩ := e1
  obtain ⟨I2, L2, S2, E2, C2, A2, B2, R2, F2, G2⟩ := e2
  dsimp only at hI hL hS hE hC hA hSB hRB hRF
  subst hI
  subst hL
  subst hS
  subst hE
  subst hC
  subst hA
  subst hSB
  subst hRB
  subst hRF
  exact shootRay_rng_free I1 L1 S1 E1 C1 A1 B1 R1 F1 G1 G2 d1 r1

def cexEnv10 : Env :=
  { intersect := fun _ => cexMiss9, lights := []
    sqrtf := fun q => q, expf := fun q => q, cosf := fun _ => 0
    ambientLight := 0, shadowBias := 0, reflectionBias := 0, refractionBias := 0
    rng := fun _ => 0 }

/-- The same environment with a different random stream. -/
def cexEnv10b : Env := { cexEnv10 with rng := fun n => (n : ℚ) + 7 }

/-- Witness for the C10 theorem: equal rays and depths under environments
differing only in the random stream give equal radiance. -/
theorem shootRay_deterministic_witness :
    shootRay cexEnv10 2 cexRay9 = shootRay cexEnv10b 2 cexRay9 :=
  shootRay_deterministic cexEnv10 cexEnv10b rfl rfl rfl rfl rfl rfl rfl rfl rfl
    2 2 cexRay9 cexRay9 rfl rfl
